import Mathlib

/-!
Verification of the real-time collaborative editor core of the
research-collaboration web application (client session controller in
`DraftEditor.tsx`, color assignment in `colors.ts`).

The TypeScript source is shallowly embedded: document contents are
`List Char`, JavaScript 32-bit integer arithmetic is modelled by `Int`
with explicit wrapping, the WebSocket message handler is a step function
on an explicit editor state, and the timer/abort-controller machinery is
modelled by explicit event sequences.
-/

/-! ## Color assignment (`src/frontend/src/lib/colors.ts`) -/

/-- One entry of the avatar palette: the three CSS class strings. -/
structure AvatarColor where
  bg : String
  text : String
  ring : String
deriving DecidableEq, Repr

/-- The fixed 10-entry palette `AVATAR_COLORS` from `colors.ts`. -/
def AVATAR_COLORS : List AvatarColor := [
  ⟨"bg-red-100 dark:bg-red-900/30", "text-red-700 dark:text-red-300", "ring-red-500"⟩,
  ⟨"bg-blue-100 dark:bg-blue-900/30", "text-blue-700 dark:text-blue-300", "ring-blue-500"⟩,
  ⟨"bg-green-100 dark:bg-green-900/30", "text-green-700 dark:text-green-300", "ring-green-500"⟩,
  ⟨"bg-purple-100 dark:bg-purple-900/30", "text-purple-700 dark:text-purple-300", "ring-purple-500"⟩,
  ⟨"bg-amber-100 dark:bg-amber-900/30", "text-amber-700 dark:text-amber-300", "ring-amber-500"⟩,
  ⟨"bg-pink-100 dark:bg-pink-900/30", "text-pink-700 dark:text-pink-300", "ring-pink-500"⟩,
  ⟨"bg-cyan-100 dark:bg-cyan-900/30", "text-cyan-700 dark:text-cyan-300", "ring-cyan-500"⟩,
  ⟨"bg-orange-100 dark:bg-orange-900/30", "text-orange-700 dark:text-orange-300", "ring-orange-500"⟩,
  ⟨"bg-teal-100 dark:bg-teal-900/30", "text-teal-700 dark:text-teal-300", "ring-teal-500"⟩,
  ⟨"bg-indigo-100 dark:bg-indigo-900/30", "text-indigo-700 dark:text-indigo-300", "ring-indigo-500"⟩]

/-- JavaScript `|0`: wrap an integer to the signed 32-bit range. -/
def toInt32 (n : Int) : Int := (n + 2 ^ 31) % 2 ^ 32 - 2 ^ 31

/-- One iteration of the `hashString` loop:
`hash = ((hash << 5) - hash) + char; hash |= 0`.
The shift `hash << 5` is itself a 32-bit operation in JavaScript. -/
def hashStep (h : Int) (c : Nat) : Int := toInt32 (toInt32 (h * 32) - h + c)

/-- The `for` loop of `hashString`, over the string's char codes. -/
def hashLoop : Int → List Nat → Int
  | h, [] => h
  | h, c :: cs => hashLoop (hashStep h c) cs

/-- `hashString` from `colors.ts`: run the loop from 0, then `Math.abs`.
A JavaScript string is modelled as its list of UTF-16 code units. -/
def hashString (s : List Nat) : Nat := (hashLoop 0 s).natAbs

/-- `getUserColor` from `colors.ts`: index the palette by the hash
modulo the palette length. -/
def getUserColor (userId : List Nat) : AvatarColor :=
  AVATAR_COLORS.get ⟨hashString userId % AVATAR_COLORS.length,
    Nat.mod_lt _ (by decide)⟩

/-! ## Editor data model and WebSocket message handler
(`src/frontend/src/pages/DraftEditor.tsx`) -/

/-- The editor's two modes, also used as the `content_type` tag of an
operation (`type EditorMode = "markdown" | "latex"`). -/
inductive EditorMode
  | markdown
  | latex
deriving DecidableEq, Repr

/-- A cursor position `{ line, ch }`. -/
structure CursorPos where
  line : Nat
  ch : Nat
deriving DecidableEq, Repr

/-- One roster entry (`interface ActiveUser`). -/
structure ActiveUser where
  user_id : String
  full_name : String
  color : String
deriving DecidableEq, Repr

/-- One remote-cursor overlay entry (`interface CursorOverlay`). -/
structure CursorOverlay where
  user_id : String
  full_name : String
  color : String
  position : CursorPos
deriving DecidableEq, Repr

/-- The room messages handled by `ws.onmessage`.  Fields that the
handler tests for JavaScript truthiness (`data.content_latex`,
`data.title`, `data.position`) are `Option`s; a present-but-empty string
is modelled as `some []` and is treated as falsy by the handler, exactly
as in the source. -/
inductive ServerMsg
  | init (active_users : List ActiveUser)
  | document (content : List Char) (content_latex : Option (List Char))
      (title : Option String)
  | operation (user_id : String) (content_type : EditorMode) (content : List Char)
  | cursor (user_id : String) (full_name : String) (color : String)
      (position : Option CursorPos)
  | user_join (active_users : List ActiveUser)
  | user_leave (active_users : List ActiveUser) (user_id : String)
  | title_update (user_id : String) (title : String)
  | saved
deriving DecidableEq, Repr

/-- The slice of the `DraftEditor` component state that `ws.onmessage`
reads or writes.  `ownId` is `user?.id`. -/
structure EditorState where
  ownId : String
  title : String
  content : List Char
  contentLatex : List Char
  savedFlag : Bool
  savingFlag : Bool
  isRemoteUpdate : Bool
  activeUsers : List ActiveUser
  remoteCursors : List CursorOverlay
deriving DecidableEq, Repr

/-- The `ws.onmessage` switch of `DraftEditor`, as a step function on
the editor state.  Each case is a direct transcription of the source:
`init` replaces the roster; `document` replaces the content and, when
truthy, the LaTeX content and title; `operation` applies a remote peer's
full-content replacement unless the originator is this session;
`cursor` rebuilds the overlay list by filtering out the sender's old
entry and pushing the new position when one is present; `user_join` and
`user_leave` replace the roster, the latter also dropping the leaver's
overlay; `title_update` applies a remote title; `saved` flips the
persistence indicator. -/
def handleMessage (s : EditorState) : ServerMsg → EditorState
  | .init users => { s with activeUsers := users }
  | .document c latexOpt titleOpt =>
      { s with
        content := c
        contentLatex :=
          match latexOpt with
          | some l => if l.isEmpty then s.contentLatex else l
          | none => s.contentLatex
        title :=
          match titleOpt with
          | some t => if t.isEmpty then s.title else t
          | none => s.title
        isRemoteUpdate := true }
  | .operation uid ct c =>
      if uid ≠ s.ownId then
        match ct with
        | .latex => { s with contentLatex := c, isRemoteUpdate := true }
        | .markdown => { s with content := c, isRemoteUpdate := true }
      else s
  | .cursor uid fn col posOpt =>
      if uid ≠ s.ownId then
        let filtered := s.remoteCursors.filter (fun c => c.user_id ≠ uid)
        { s with
          remoteCursors :=
            match posOpt with
            | some p => filtered ++ [⟨uid, fn, col, p⟩]
            | none => filtered }
      else s
  | .user_join users => { s with activeUsers := users }
  | .user_leave users uid =>
      { s with
        activeUsers := users
        remoteCursors := s.remoteCursors.filter (fun c => c.user_id ≠ uid) }
  | .title_update uid t =>
      if uid ≠ s.ownId then { s with title := t } else s
  | .saved => { s with savedFlag := true, savingFlag := false }

/-- The component's initial state for a session with id `own`
(the `useState` initialisers). -/
def initEditorState (own : String) : EditorState :=
  { ownId := own
    title := ""
    content := []
    contentLatex := []
    savedFlag := true
    savingFlag := false
    isRemoteUpdate := false
    activeUsers := []
    remoteCursors := [] }

/-- Processing a whole sequence of room messages. -/
def runMessages (s : EditorState) (ms : List ServerMsg) : EditorState :=
  ms.foldl handleMessage s

/-! ## Saved/saving indicator (`sendOperation` debounce and the `saved`
message of `DraftEditor.tsx`) -/

/-- The three events that touch the `saved` / `saving` flags:
a successful `sendOperation` (which also (re)starts the 2.5 s
`saveTimerRef` debounce timer), the firing of that timer, and the
arrival of the server's `saved` acknowledgment. -/
inductive SaveEvent
  | sendOp
  | timerFire
  | savedMsg
deriving DecidableEq, Repr

/-- The saved/saving indicator state plus whether the debounce timer is
currently armed. -/
structure SaveState where
  savedFlag : Bool
  savingFlag : Bool
  timerPending : Bool
deriving DecidableEq, Repr

/-- Transcription of the indicator updates in `DraftEditor.tsx`:
`sendOperation` does `setSaved(false); setSaving(true)` and resets the
timer; the timer callback does `setSaving(false); setSaved(true)`; the
`saved` message case does `setSaved(true); setSaving(false)` (and does
not clear the timer). -/
def saveStep (s : SaveState) : SaveEvent → SaveState
  | .sendOp => ⟨false, true, true⟩
  | .timerFire => if s.timerPending then ⟨true, false, false⟩ else s
  | .savedMsg => ⟨true, false, s.timerPending⟩

/-- Initial indicator state: `useState(true)` for `saved`,
`useState(false)` for `saving`, no timer armed. -/
def initSaveState : SaveState := ⟨true, false, false⟩

/-- Running the indicator machine over a sequence of events. -/
def runSave (es : List SaveEvent) : SaveState :=
  es.foldl saveStep initSaveState

/-! ## Connection state (`ws.onopen` / `ws.onclose` / `ws.onerror` of
`DraftEditor.tsx`) -/

/-- WebSocket lifecycle events delivered to the draft-room client. -/
inductive WsEvent
  | opened
  | closed
  | errored
deriving DecidableEq, Repr

/-- Effects the client could emit from a lifecycle handler; scheduling
a reconnection attempt after a delay is the only one relevant here. -/
inductive WsEffect
  | scheduleReconnect (delayMs : Nat)
deriving DecidableEq, Repr

/-- The `connected` flag of `DraftEditor`. -/
structure ConnState where
  connected : Bool
deriving DecidableEq, Repr

/-- Transcription of the draft room's WebSocket lifecycle handlers:
`onopen` does `setConnected(true)`; `onclose` and `onerror` do
`setConnected(false)`.  No handler schedules any reconnection. -/
def draftWsStep (_s : ConnState) : WsEvent → ConnState × List WsEffect
  | .opened => (⟨true⟩, [])
  | .closed => (⟨false⟩, [])
  | .errored => (⟨false⟩, [])

/-- Running the lifecycle handlers over a sequence of events,
accumulating every emitted effect. -/
def runWs (s : ConnState) : List WsEvent → ConnState × List WsEffect
  | [] => (s, [])
  | e :: es =>
      let (s₁, fx₁) := draftWsStep s e
      let (s₂, fx₂) := runWs s₁ es
      (s₂, fx₁ ++ fx₂)

/-! ## Operation submission (`sendOperation` of `DraftEditor.tsx`) -/

/-- The payload of a client `operation` message: the full replacement
content, the `content_type` tag, and the `version: Date.now()` stamp. -/
structure OpMsg where
  content : List Char
  content_type : EditorMode
  version : Nat
deriving DecidableEq, Repr

/-- `sendOperation`: guarded by `wsRef.current?.readyState ===
WebSocket.OPEN && !isRemoteUpdate.current`; when the guard passes it
sends the full new content, tagged with the current editor mode, with a
`Date.now()` version stamp (`now` is the wall-clock reading at the call). -/
def sendOperation (wsOpen : Bool) (isRemoteUpdate : Bool)
    (mode : EditorMode) (now : Nat) (newContent : List Char) : Option OpMsg :=
  if wsOpen && !isRemoteUpdate then
    some { content := newContent, content_type := mode, version := now }
  else none

/-! ## Ghost-text suggestion pipeline (`fetchGhostSuggestion`,
`acceptGhostText`, `dismissGhostText`, `handleContentChange` of
`DraftEditor.tsx`) -/

/-- JavaScript `text.substring(a, b)` for `a ≤ b`, on a string modelled
as a list of characters: both indices clamp to the string length. -/
def jsSubstring (l : List Char) (a b : Nat) : List Char :=
  (l.drop a).take (b - a)

/-- JavaScript `String.prototype.trim`: strip whitespace from both
ends. -/
def jsTrim (l : List Char) : List Char :=
  ((l.dropWhile Char.isWhitespace).reverse.dropWhile Char.isWhitespace).reverse

/-- The idle delay (ms) `handleContentChange` waits after the last
keystroke before calling `fetchGhostSuggestion` (the `setTimeout(...,
1500)` that arms `ghostTimerRef`). -/
def GHOST_IDLE_DELAY_MS : Nat := 1500

/-- The body of the POST to `/api/drafts/ai/inline-suggest`. -/
structure SuggestRequest where
  context_before : List Char
  context_after : List Char
  full_title : String
deriving DecidableEq, Repr

/-- The request-construction part of `fetchGhostSuggestion`:
`contextBefore = text.substring(Math.max(0, cursorPos - 600),
cursorPos)`, `contextAfter = text.substring(cursorPos,
Math.min(text.length, cursorPos + 200))`, and the early return
`if (contextBefore.trim().length < 20) return;`.  Returns `none` when
no request is issued. -/
def fetchGhostSuggestionRequest (text : List Char) (cursorPos : Nat)
    (title : String) : Option SuggestRequest :=
  if (jsTrim (jsSubstring text (cursorPos - 600) cursorPos)).length < 20 then none
  else some ⟨jsSubstring text (cursorPos - 600) cursorPos,
    jsSubstring text cursorPos (min text.length (cursorPos + 200)), title⟩

/-- The editor-state slice read and written by `acceptGhostText` and the
textarea `onKeyDown` handler. -/
structure GhostState where
  mode : EditorMode
  content : List Char
  contentLatex : List Char
  ghostText : List Char
  ghostCursorPos : Nat
  selectionStart : Nat
deriving DecidableEq, Repr

/-- `editorMode === "latex" ? contentLatex : content`. -/
def activeContent (s : GhostState) : List Char :=
  match s.mode with
  | .latex => s.contentLatex
  | .markdown => s.content

/-- `acceptGhostText`: no-op when the ghost text is empty (falsy);
otherwise splices the accumulated ghost text into the active content at
`ghostCursorPos` — the offset recorded at trigger time — clears the
ghost text, and moves the cursor to the end of the insertion.  The
current `selectionStart` is never consulted. -/
def acceptGhostText (s : GhostState) : GhostState :=
  if s.ghostText.isEmpty then s
  else
    let ac := activeContent s
    let newContent := ac.take s.ghostCursorPos ++ s.ghostText ++ ac.drop s.ghostCursorPos
    let s₁ :=
      match s.mode with
      | .latex => { s with contentLatex := newContent }
      | .markdown => { s with content := newContent }
    { s₁ with
      ghostText := []
      selectionStart := s.ghostCursorPos + s.ghostText.length }

/-- The textarea `onKeyDown` Tab branch: `if (e.key === "Tab" &&
ghostText) { e.preventDefault(); acceptGhostText(); }`.  The only guard
is that the ghost text is non-empty. -/
def onKeyDownTab (s : GhostState) : GhostState :=
  if s.ghostText.isEmpty then s else acceptGhostText s

/-- The ghost overlay render guard: `ghostText && ghostCursorPos ===
editorRef.current?.selectionStart`. -/
def ghostOverlayVisible (s : GhostState) : Bool :=
  !s.ghostText.isEmpty && s.ghostCursorPos == s.selectionStart

/-- Events acting on the per-session suggestion pipeline.  `trigger b`
is a run of `fetchGhostSuggestion` (which always aborts the previous
controller and installs a fresh one); `b` records whether the
trailing-context length check passed so a fetch was actually issued.
`keystroke` is `handleContentChange` calling `dismissGhostText`;
`dismiss` is the Escape branch calling `dismissGhostText`; `streamEnd`
is a request's stream finishing on its own. -/
inductive PipeEvent
  | trigger (issued : Bool)
  | keystroke
  | dismiss
  | streamEnd (id : Nat)
deriving DecidableEq, Repr

/-- Pipeline state: the ids of requests currently in flight (not yet
aborted or finished) and a counter for fresh ids. -/
structure PipeState where
  live : List Nat
  nextId : Nat
deriving DecidableEq, Repr

/-- Transcription of the abort discipline: `fetchGhostSuggestion` first
does `abortRef.current.abort()` (killing every previous in-flight
request) and installs a new controller, then issues at most one fetch;
`dismissGhostText` (reached from any keystroke and from Escape) aborts
the in-flight request; a stream that ends removes itself. -/
def pipeStep (s : PipeState) : PipeEvent → PipeState
  | .trigger issued =>
      { live := if issued then [s.nextId] else [], nextId := s.nextId + 1 }
  | .keystroke => { s with live := [] }
  | .dismiss => { s with live := [] }
  | .streamEnd i => { s with live := s.live.filter (fun j => j ≠ i) }

/-- Pipeline state before any trigger. -/
def initPipeState : PipeState := ⟨[], 0⟩

/-- Running the pipeline over a sequence of events. -/
def runPipe (es : List PipeEvent) : PipeState :=
  es.foldl pipeStep initPipeState

/-- How the fetch of `fetchGhostSuggestion` can turn out: the `fetch`
call itself throws (network failure, or abort before a response), the
response is not OK, the response has no body, or a stream of text
fragments is read which ends by completing, by an abort, or by a
network error (the latter two raise inside `reader.read()` and are
swallowed by the surrounding `catch`). -/
inductive StreamEnd
  | completed
  | aborted
  | netError
deriving DecidableEq, Repr

/-- Outcome of one `fetchGhostSuggestion` fetch. -/
inductive FetchOutcome
  | netError
  | notOk
  | noBody
  | stream (frags : List (List Char)) (ending : StreamEnd)
deriving DecidableEq, Repr

/-- User-visible error surfaces the handler could produce (toasts);
`fetchGhostSuggestion` never produces any. -/
inductive UiEffect
  | errorToast (msg : String)
deriving DecidableEq, Repr

/-- The state read and written by the response-processing part of
`fetchGhostSuggestion`. -/
structure SuggestState where
  content : List Char
  contentLatex : List Char
  title : String
  ghostText : List Char
  ghostCursorPos : Nat
deriving DecidableEq, Repr

/-- The response-processing part of `fetchGhostSuggestion`: early
`return` on `!res.ok || !res.body`, a `catch` that silently swallows
abort and network errors, and a read loop that accumulates fragments
into `suggestion` and publishes the accumulated text with
`setGhostText(suggestion); setGhostCursorPos(cursorPos)` after every
fragment.  The second component is the list of user-visible error
surfaces produced (always empty). -/
def fetchGhostSuggestionResponse (s : SuggestState) (cursorPos : Nat) :
    FetchOutcome → SuggestState × List UiEffect
  | .netError => (s, [])
  | .notOk => (s, [])
  | .noBody => (s, [])
  | .stream frags _ =>
      if frags.isEmpty then (s, [])
      else
        ({ s with ghostText := frags.flatten, ghostCursorPos := cursorPos }, [])

/-- The failure outcomes enumerated by the error-handling design:
network error, non-OK response, missing body, or an abort/error before
any fragment arrived. -/
def isEarlyFailure : FetchOutcome → Bool
  | .netError => true
  | .notOk => true
  | .noBody => true
  | .stream frags ending => frags.isEmpty && ending != StreamEnd.completed

lemma toInt32_lb (n : Int) : -2 ^ 31 ≤ toInt32 n := by
  unfold toInt32
  have h : (0 : Int) ≤ (n + 2 ^ 31) % 2 ^ 32 := Int.emod_nonneg _ (by norm_num)
  linarith

lemma toInt32_ub (n : Int) : toInt32 n < 2 ^ 31 := by
  unfold toInt32
  have h : (n + 2 ^ 31) % 2 ^ 32 < 2 ^ 32 := Int.emod_lt_of_pos _ (by norm_num)
  linarith

lemma hashLoop_range (cs : List Nat) (h : Int)
    (hl : -2 ^ 31 ≤ h) (hu : h < 2 ^ 31) :
    -2 ^ 31 ≤ hashLoop h cs ∧ hashLoop h cs < 2 ^ 31 := by
  induction cs generalizing h with
  | nil => exact ⟨hl, hu⟩
  | cons c cs ih =>
      exact ih (hashStep h c) (toInt32_lb _) (toInt32_ub _)

lemma hashString_le (s : List Nat) : hashString s ≤ 2 ^ 31 := by
  have h := hashLoop_range s 0 (by norm_num) (by norm_num)
  unfold hashString
  omega

lemma handleMessage_ownId (s : EditorState) (m : ServerMsg) :
    (handleMessage s m).ownId = s.ownId := by
  cases m <;> simp only [handleMessage] <;> (repeat' split) <;> rfl

lemma cursorsInv_preserved (s : EditorState) (m : ServerMsg)
    (h₁ : (s.remoteCursors.map (fun c => c.user_id)).Nodup)
    (h₂ : ∀ c ∈ s.remoteCursors, c.user_id ≠ s.ownId) :
    ((handleMessage s m).remoteCursors.map (fun c => c.user_id)).Nodup ∧
    ∀ c ∈ (handleMessage s m).remoteCursors, c.user_id ≠ s.ownId := by
  cases m with
  | init users => exact ⟨h₁, h₂⟩
  | document c lo t => exact ⟨h₁, h₂⟩
  | operation uid ct c =>
      simp only [handleMessage]
      split
      · cases ct <;> exact ⟨h₁, h₂⟩
      · exact ⟨h₁, h₂⟩
  | cursor uid fn col posOpt =>
      simp only [handleMessage]
      split
      · rename_i hne
        have hsub : ((s.remoteCursors.filter (fun c => c.user_id ≠ uid)).map
            (fun c => c.user_id)).Sublist (s.remoteCursors.map (fun c => c.user_id)) :=
          (List.filter_sublist _).map _
        have hfil₁ : ((s.remoteCursors.filter (fun c => c.user_id ≠ uid)).map
            (fun c => c.user_id)).Nodup := h₁.sublist hsub
        have hfil₂ : ∀ c ∈ s.remoteCursors.filter (fun c => c.user_id ≠ uid),
            c.user_id ≠ s.ownId := by
          intro c hc
          exact h₂ c (List.mem_of_mem_filter hc)
        cases posOpt with
        | none => exact ⟨hfil₁, hfil₂⟩
        | some p =>
            constructor
            · rw [List.map_append, List.nodup_append]
              refine ⟨hfil₁, List.nodup_singleton _, ?_⟩
              intro x hx
              simp only [List.mem_map, List.mem_filter, decide_eq_true_eq] at hx
              obtain ⟨c, ⟨_, hcu⟩, rfl⟩ := hx
              simpa using hcu
            · intro c hc
              rcases List.mem_append.1 hc with hin | hin
              · exact hfil₂ c hin
              · simp only [List.mem_singleton] at hin
                subst hin
                exact hne
      · exact ⟨h₁, h₂⟩
  | user_join users => exact ⟨h₁, h₂⟩
  | user_leave users uid =>
      simp only [handleMessage]
      refine ⟨h₁.sublist ((List.filter_sublist _).map _), ?_⟩
      intro c hc
      exact h₂ c (List.mem_of_mem_filter hc)
  | title_update uid t =>
      simp only [handleMessage]
      split
      · exact ⟨h₁, h₂⟩
      · exact ⟨h₁, h₂⟩
  | saved => exact ⟨h₁, h₂⟩

lemma runMessages_cursorsInv (own : String) (ms : List ServerMsg) :
    ((runMessages (initEditorState own) ms).remoteCursors.map
      (fun c => c.user_id)).Nodup ∧
    ∀ c ∈ (runMessages (initEditorState own) ms).remoteCursors,
      c.user_id ≠ own := by
  suffices h : ∀ (s : EditorState),
      (s.remoteCursors.map (fun c => c.user_id)).Nodup →
      (∀ c ∈ s.remoteCursors, c.user_id ≠ s.ownId) →
      ((runMessages s ms).remoteCursors.map (fun c => c.user_id)).Nodup ∧
      (∀ c ∈ (runMessages s ms).remoteCursors, c.user_id ≠ s.ownId) by
    exact h (initEditorState own) (by simp [initEditorState]) (by simp [initEditorState])
  induction ms with
  | nil => intro s h₁ h₂; exact ⟨h₁, h₂⟩
  | cons m ms ih =>
      intro s h₁ h₂
      have step := cursorsInv_preserved s m h₁ h₂
      have hown := handleMessage_ownId s m
      have := ih (handleMessage s m) step.1 (by rw [hown]; exact step.2)
      rw [hown] at this
      exact this

lemma runMessages_ownId (s : EditorState) (ms : List ServerMsg) :
    (runMessages s ms).ownId = s.ownId := by
  induction ms generalizing s with
  | nil => rfl
  | cons m ms ih =>
      exact (ih (handleMessage s m)).trans (handleMessage_ownId s m)

/-- Claim C5: processing an `operation` message whose originator id
equals the session's own participant id leaves the document content,
the alternate-format (LaTeX) content and the title unchanged — in fact
the whole editor state is unchanged, because the `ws.onmessage`
`operation` case is guarded by `data.user_id !== user?.id`. -/
theorem operation_self_echo_noop (s : EditorState) (ct : EditorMode)
    (c : List Char) :
    (handleMessage s (.operation s.ownId ct c)).content = s.content ∧
    (handleMessage s (.operation s.ownId ct c)).contentLatex = s.contentLatex ∧
    (handleMessage s (.operation s.ownId ct c)).title = s.title ∧
    handleMessage s (.operation s.ownId ct c) = s := by
  simp [handleMessage]

/-- Claim C10: after processing any sequence of room messages from the
initial state, the remote-cursor overlay list has pairwise-distinct
participant ids (at most one entry per participant) and never contains
the session's own id; moreover, from the reached state, a `cursor`
message with an empty position leaves no entry for that participant,
and a `user_leave` message leaves no entry for the leaving
participant. -/
theorem remoteCursors_invariant (own : String) (ms : List ServerMsg) :
    (((runMessages (initEditorState own) ms).remoteCursors.map
        (fun c => c.user_id)).Nodup ∧
      ((runMessages (initEditorState own) ms).remoteCursors.all
        (fun c => c.user_id != own)) = true) ∧
    (∀ uid fn col,
      ((handleMessage (runMessages (initEditorState own) ms)
          (.cursor uid fn col none)).remoteCursors.all
        (fun c => c.user_id != uid)) = true) ∧
    (∀ users uid,
      ((handleMessage (runMessages (initEditorState own) ms)
          (.user_leave users uid)).remoteCursors.all
        (fun c => c.user_id != uid)) = true) := by
  obtain ⟨hnd, hown⟩ := runMessages_cursorsInv own ms
  have hsid : (runMessages (initEditorState own) ms).ownId = own := by
    rw [runMessages_ownId]; rfl
  refine ⟨⟨hnd, ?_⟩, ?_, ?_⟩
  · rw [List.all_eq_true]
    intro c hc
    exact bne_iff_ne.mpr (hown c hc)
  · intro uid fn col
    by_cases huid : uid = own
    · have hno : handleMessage (runMessages (initEditorState own) ms)
          (.cursor uid fn col none) = runMessages (initEditorState own) ms := by
        simp [handleMessage, hsid, huid]
      rw [hno, List.all_eq_true]
      intro c hc
      rw [huid]
      exact bne_iff_ne.mpr (hown c hc)
    · have hfil : handleMessage (runMessages (initEditorState own) ms)
          (.cursor uid fn col none) =
          { runMessages (initEditorState own) ms with
            remoteCursors := (runMessages (initEditorState own) ms).remoteCursors.filter
              (fun c => c.user_id ≠ uid) } := by
        simp [handleMessage, hsid, huid]
      rw [hfil, List.all_eq_true]
      intro c hc
      simp only [List.mem_filter, decide_eq_true_eq] at hc
      exact bne_iff_ne.mpr hc.2
  · intro users uid
    simp only [handleMessage]
    rw [List.all_eq_true]
    intro c hc
    simp only [List.mem_filter, decide_eq_true_eq] at hc
    exact bne_iff_ne.mpr hc.2

/-- Claim C9: for every participant id (any list of char codes),
`getUserColor` is total and returns an element of the fixed 10-entry
palette: the hash-derived index is always within array bounds — the hash
value never exceeds `2 ^ 31`, covering the edge case where the 32-bit
hash is `-2 ^ 31` and `Math.abs` yields `2 ^ 31` — and the result is the
palette entry at that index, so two calls with the same id return the
same palette element. -/
theorem getUserColor_total_in_palette (userId : List Nat) :
    AVATAR_COLORS.length = 10 ∧
    hashString userId % AVATAR_COLORS.length < AVATAR_COLORS.length ∧
    hashString userId ≤ 2 ^ 31 ∧
    getUserColor userId ∈ AVATAR_COLORS := by
  refine ⟨by decide, Nat.mod_lt _ (by decide), hashString_le _, ?_⟩
  exact List.get_mem _ _ _

/-- Claim C1 (counterexample): the draft room's close handler makes no
reconnection attempt at all.  Starting connected, a single connection
loss yields the offline state with an empty effect list — in particular
no `scheduleReconnect` effect — contradicting the claim that the client
retries the connection with backoff delays after a loss. -/
theorem draft_room_close_no_reconnect :
    draftWsStep ⟨true⟩ WsEvent.closed = (⟨false⟩, []) ∧
    ¬ ∃ d, WsEffect.scheduleReconnect d ∈ (draftWsStep ⟨true⟩ WsEvent.closed).2 := by
  refine ⟨rfl, ?_⟩
  rintro ⟨d, hd⟩
  simp [draftWsStep] at hd

/-- Claim C1 (amended): when the draft room's connection is lost the
client transitions immediately to the offline state (`connected =
false`) and makes no reconnection attempts whatsoever — no lifecycle
handler ever schedules a reconnection, over any sequence of events —
so the offline state is permanent for the life of the component. -/
theorem draft_room_offline_no_retries (s : ConnState) (es : List WsEvent) :
    (∀ e, (draftWsStep s e).2 = []) ∧
    (runWs s es).2 = [] ∧
    (draftWsStep s WsEvent.closed).1.connected = false ∧
    (draftWsStep s WsEvent.errored).1.connected = false := by
  refine ⟨fun e => by cases e <;> rfl, ?_, rfl, rfl⟩
  induction es generalizing s with
  | nil => rfl
  | cons e es ih =>
      show (runWs s (e :: es)).2 = []
      simp only [runWs]
      cases e <;> simp [draftWsStep, ih]

/-- Claim C2 (counterexample): the "saving" indicator can transition to
"saved" without any `saved` acknowledgment: the run consisting of one
sent operation followed by the client-local 2.5 s debounce timer firing
ends with `saved = true`, although no `saved` message occurs in the
run. -/
theorem saved_without_ack :
    (runSave [SaveEvent.sendOp, SaveEvent.timerFire]).savedFlag = true ∧
    SaveEvent.savedMsg ∉ [SaveEvent.sendOp, SaveEvent.timerFire] := by
  decide

/-- Claim C2 (amended): the indicator transitions to "saved" exactly
when the server's `saved` acknowledgment arrives or when the
client-local 2.5 s debounce timer armed by the last sent operation
fires — whichever comes first — so the saved indicator is not driven
solely by the acknowledgment of a durable write. -/
theorem saved_iff_ack_or_timer (s : SaveState) (e : SaveEvent) :
    (saveStep s e).savedFlag = true ↔
      e = SaveEvent.savedMsg ∨
      (e = SaveEvent.timerFire ∧ s.timerPending = true) ∨
      (s.savedFlag = true ∧ e ≠ SaveEvent.sendOp) := by
  rcases s with ⟨sv, sg, tp⟩
  cases e <;> cases sv <;> cases tp <;> simp [saveStep]

/-- Claim C3 (counterexample): accepting is not disabled when the
cursor has moved.  In a concrete state where the recorded trigger
offset is 1 but the current cursor is at 3, pressing Tab with a
non-empty ghost text still splices: the content changes from `abcd` to
`aXYbcd`, contradicting the claim that no splice occurs when the
current cursor differs from the recorded position. -/
theorem stale_cursor_accept_still_splices :
    (GhostState.mk EditorMode.markdown "abcd".toList [] "XY".toList 1 3).selectionStart ≠
      (GhostState.mk EditorMode.markdown "abcd".toList [] "XY".toList 1 3).ghostCursorPos ∧
    (onKeyDownTab
        (GhostState.mk EditorMode.markdown "abcd".toList [] "XY".toList 1 3)).content =
      "aXYbcd".toList ∧
    (onKeyDownTab
        (GhostState.mk EditorMode.markdown "abcd".toList [] "XY".toList 1 3)).content ≠
      "abcd".toList := by
  decide

/-- Claim C3 (amended): pressing Tab with a non-empty ghost suggestion
always accepts, regardless of whether the cursor has moved since the
trigger; the splice is applied at the offset recorded at trigger time
(`ghostCursorPos`), never at the current cursor position, the ghost
buffer is cleared and the cursor is moved to the end of the insertion;
cursor movement only suppresses the ghost overlay display
(`ghostOverlayVisible` is false when the current cursor differs from
the recorded offset). -/
theorem accept_splices_at_recorded_offset (s : GhostState)
    (h : s.ghostText ≠ []) :
    activeContent (onKeyDownTab s) =
      (activeContent s).take s.ghostCursorPos ++ s.ghostText ++
        (activeContent s).drop s.ghostCursorPos ∧
    (onKeyDownTab s).ghostText = [] ∧
    (onKeyDownTab s).selectionStart = s.ghostCursorPos + s.ghostText.length ∧
    (s.selectionStart ≠ s.ghostCursorPos → ghostOverlayVisible s = false) := by
  have hne : s.ghostText.isEmpty = false := by
    simpa [List.isEmpty_iff] using h
  refine ⟨?_, ?_, ?_, ?_⟩
  · rcases s with ⟨mode, c, cl, g, gp, sel⟩
    cases mode <;> simp [onKeyDownTab, acceptGhostText, activeContent, hne] at hne ⊢
  · rcases s with ⟨mode, c, cl, g, gp, sel⟩
    cases mode <;> simp [onKeyDownTab, acceptGhostText, hne]
  · rcases s with ⟨mode, c, cl, g, gp, sel⟩
    cases mode <;> simp [onKeyDownTab, acceptGhostText, hne]
  · intro hmove
    simp [ghostOverlayVisible, hne]
    exact fun hc => absurd hc.symm hmove

/-- Witness for the amended C3 theorem at a concrete state: LaTeX mode,
ghost text `Z` recorded at offset 0, cursor currently at 2. -/
theorem accept_splices_at_recorded_offset_witness :
    ("Z".toList ≠ ([] : List Char)) ∧
    activeContent (onKeyDownTab
        (GhostState.mk EditorMode.latex "q".toList "ab".toList "Z".toList 0 2)) =
      "Zab".toList := by
  refine ⟨by decide, ?_⟩
  have h := accept_splices_at_recorded_offset
    (GhostState.mk EditorMode.latex "q".toList "ab".toList "Z".toList 0 2)
    (by decide)
  rw [h.1]
  decide

lemma pipeStep_preserves (s : PipeState) (e : PipeEvent)
    (h₁ : s.live.length ≤ 1) (h₂ : ∀ i ∈ s.live, i < s.nextId) :
    (pipeStep s e).live.length ≤ 1 ∧
    ∀ i ∈ (pipeStep s e).live, i < (pipeStep s e).nextId := by
  cases e with
  | trigger issued =>
      cases issued <;> simp [pipeStep]
  | keystroke => simp [pipeStep]
  | dismiss => simp [pipeStep]
  | streamEnd i =>
      refine ⟨le_trans (List.length_filter_le _ _) h₁, ?_⟩
      intro j hj
      exact h₂ j (List.mem_of_mem_filter hj)

lemma runPipe_inv (es : List PipeEvent) :
    (runPipe es).live.length ≤ 1 ∧
    ∀ i ∈ (runPipe es).live, i < (runPipe es).nextId := by
  suffices h : ∀ (s : PipeState), s.live.length ≤ 1 →
      (∀ i ∈ s.live, i < s.nextId) →
      (es.foldl pipeStep s).live.length ≤ 1 ∧
      ∀ i ∈ (es.foldl pipeStep s).live, i < (es.foldl pipeStep s).nextId by
    exact h initPipeState (by simp [initPipeState]) (by simp [initPipeState])
  induction es with
  | nil => intro s h₁ h₂; exact ⟨h₁, h₂⟩
  | cons e es ih =>
      intro s h₁ h₂
      have step := pipeStep_preserves s e h₁ h₂
      exact ih (pipeStep s e) step.1 step.2

/-- Claim C4: at most one suggestion request is outstanding at any
time, over every sequence of pipeline events; a new trigger's in-flight
set is disjoint from the previous one (the previous request is aborted
first), and any keystroke or explicit dismiss empties the in-flight set
immediately. -/
theorem suggestion_single_flight (es : List PipeEvent) :
    (runPipe es).live.length ≤ 1 ∧
    (∀ issued, ((pipeStep (runPipe es) (.trigger issued)).live.filter
        (fun i => i ∈ (runPipe es).live)) = []) ∧
    (pipeStep (runPipe es) PipeEvent.keystroke).live = [] ∧
    (pipeStep (runPipe es) PipeEvent.dismiss).live = [] := by
  obtain ⟨hlen, hlt⟩ := runPipe_inv es
  refine ⟨hlen, ?_, rfl, rfl⟩
  intro issued
  cases issued with
  | false => rfl
  | true =>
      have hstep : (pipeStep (runPipe es) (.trigger true)).live =
          [(runPipe es).nextId] := rfl
      rw [hstep, List.filter_eq_nil_iff]
      intro i hi
      simp only [List.mem_singleton] at hi
      subst hi
      simp only [decide_eq_true_eq]
      intro hmem
      exact absurd (hlt _ hmem) (lt_irrefl _)

/-- Claim C6: every operation a session submits carries the full
replacement content (the entire new document text, not a diff), the
`content_type` tag equal to the current editor mode, and a version
stamp equal to the wall-clock reading at the call; across two
successive submissions the stamps are monotone whenever the wall clock
is (wall-clock derived). -/
theorem sendOperation_full_payload (mode₁ mode₂ : EditorMode)
    (n₁ n₂ : Nat) (c₁ c₂ : List Char) (m₁ m₂ : OpMsg)
    (h₁ : sendOperation true false mode₁ n₁ c₁ = some m₁)
    (h₂ : sendOperation true false mode₂ n₂ c₂ = some m₂)
    (hn : n₁ ≤ n₂) :
    m₁.content = c₁ ∧ m₁.content_type = mode₁ ∧ m₁.version = n₁ ∧
    m₂.content = c₂ ∧ m₂.content_type = mode₂ ∧ m₂.version = n₂ ∧
    m₁.version ≤ m₂.version := by
  simp only [sendOperation, Bool.and_self, Bool.not_false, if_true,
    Option.some.injEq] at h₁ h₂
  subst h₁
  subst h₂
  simp only [true_and, and_true]
  exact hn

/-- Witness for the C6 theorem at concrete submissions: content `a` in
markdown mode at time 1, then content `b` in latex mode at time 2. -/
theorem sendOperation_full_payload_witness :
    sendOperation true false EditorMode.markdown 1 "a".toList =
      some ⟨"a".toList, EditorMode.markdown, 1⟩ ∧
    sendOperation true false EditorMode.latex 2 "b".toList =
      some ⟨"b".toList, EditorMode.latex, 2⟩ ∧
    (OpMsg.mk "a".toList EditorMode.markdown 1).version ≤
      (OpMsg.mk "b".toList EditorMode.latex 2).version := by
  refine ⟨rfl, rfl, ?_⟩
  exact (sendOperation_full_payload EditorMode.markdown EditorMode.latex 1 2
    "a".toList "b".toList ⟨"a".toList, EditorMode.markdown, 1⟩
    ⟨"b".toList, EditorMode.latex, 2⟩ rfl rfl (by decide)).2.2.2.2.2.2

/-- Claim C7: a ghost-text suggestion request is issued only when the
trimmed trailing-context window reaches the 20-character minimum, and
an issued request carries the trailing-context window of at most 600
characters before the cursor, the leading-context window of at most 200
characters after the cursor, and the document title; the request is
scheduled a fixed `GHOST_IDLE_DELAY_MS = 1500` ms after the last local
keystroke. -/
theorem ghost_request_bounded (text : List Char) (cursorPos : Nat)
    (title : String) (r : SuggestRequest)
    (h : fetchGhostSuggestionRequest text cursorPos title = some r) :
    GHOST_IDLE_DELAY_MS = 1500 ∧
    r.context_before.length ≤ 600 ∧
    r.context_after.length ≤ 200 ∧
    r.full_title = title ∧
    20 ≤ (jsTrim r.context_before).length ∧
    r.context_before = jsSubstring text (cursorPos - 600) cursorPos ∧
    r.context_after = jsSubstring text cursorPos (min text.length (cursorPos + 200)) := by
  unfold fetchGhostSuggestionRequest at h
  by_cases hc : (jsTrim (jsSubstring text (cursorPos - 600) cursorPos)).length < 20
  · rw [if_pos hc] at h
    exact absurd h (by simp)
  · rw [if_neg hc] at h
    injection h with h
    subst h
    dsimp only
    refine ⟨rfl, ?_, ?_, rfl, by omega, rfl, rfl⟩
    · unfold jsSubstring
      calc ((text.drop (cursorPos - 600)).take (cursorPos - (cursorPos - 600))).length
          ≤ cursorPos - (cursorPos - 600) := by
            rw [List.length_take]; exact min_le_left _ _
        _ ≤ 600 := by omega
    · unfold jsSubstring
      calc ((text.drop cursorPos).take (min text.length (cursorPos + 200) - cursorPos)).length
          ≤ min text.length (cursorPos + 200) - cursorPos := by
            rw [List.length_take]; exact min_le_left _ _
        _ ≤ 200 := by omega

/-- Witness for the C7 theorem: a 25-letter document with the cursor at
its end issues a request whose trailing context is the whole text and
whose leading context is empty. -/
theorem ghost_request_bounded_witness :
    fetchGhostSuggestionRequest "abcdefghijklmnopqrstuvwxy".toList 25 "T" =
      some ⟨"abcdefghijklmnopqrstuvwxy".toList, [], "T"⟩ ∧
    (SuggestRequest.mk "abcdefghijklmnopqrstuvwxy".toList [] "T").context_before.length ≤ 600 ∧
    20 ≤ (jsTrim (SuggestRequest.mk "abcdefghijklmnopqrstuvwxy".toList [] "T").context_before).length := by
  have h := ghost_request_bounded "abcdefghijklmnopqrstuvwxy".toList 25 "T"
    ⟨"abcdefghijklmnopqrstuvwxy".toList, [], "T"⟩ (by decide)
  exact ⟨by decide, h.2.1, h.2.2.2.2.1⟩

/-- Claim C8: every failing suggestion request is resolved silently:
for every fetch outcome the handler produces no user-visible error
surface and leaves the document content, the LaTeX content and the
title unchanged, and for each failure before any fragment arrives
(network error, non-OK response, missing body, or an abort or error
with no fragment read) the entire state is returned untouched — no
suggestion is produced.  Totality of `fetchGhostSuggestionResponse`
models the `catch` swallowing every exception. -/
theorem suggestion_failure_silent (s : SuggestState) (cursorPos : Nat) :
    (∀ out, (fetchGhostSuggestionResponse s cursorPos out).1.content = s.content ∧
      (fetchGhostSuggestionResponse s cursorPos out).1.contentLatex = s.contentLatex ∧
      (fetchGhostSuggestionResponse s cursorPos out).1.title = s.title ∧
      (fetchGhostSuggestionResponse s cursorPos out).2 = []) ∧
    fetchGhostSuggestionResponse s cursorPos FetchOutcome.netError = (s, []) ∧
    fetchGhostSuggestionResponse s cursorPos FetchOutcome.notOk = (s, []) ∧
    fetchGhostSuggestionResponse s cursorPos FetchOutcome.noBody = (s, []) ∧
    ∀ ending, fetchGhostSuggestionResponse s cursorPos (FetchOutcome.stream [] ending) = (s, []) := by
  refine ⟨?_, rfl, rfl, rfl, fun ending => rfl⟩
  intro out
  cases out with
  | netError => exact ⟨rfl, rfl, rfl, rfl⟩
  | notOk => exact ⟨rfl, rfl, rfl, rfl⟩
  | noBody => exact ⟨rfl, rfl, rfl, rfl⟩
  | stream frags ending =>
      by_cases hf : frags.isEmpty <;>
        simp [fetchGhostSuggestionResponse, hf]
